import Mathlib

/-!
Shallow embedding of the gpsd client in src/gpsd_influxdb/lib/Gpsd.py.

JSON payloads are modelled by the inductive type `JVal`; Python numbers
(ints and floats) are modelled by rationals; Python dict/list subscripting
that can raise KeyError, IndexError or TypeError is modelled by
Option-valued lookups, and functions that can raise return `Except Err`.
The effectful socket code (`connect`, `disconnect`, `from_json` through its
call to the class constructor) is modelled by explicit state passing over a
`Client` record together with a trace of I/O events; the incoming network
lines are a `List JVal` parameter.
-/

namespace GpsdSpec

/-- A JSON value, as produced by json.loads on one line from the daemon. -/
inductive JVal where
  | null
  | bool (b : Bool)
  | num (q : ℚ)
  | str (s : String)
  | arr (xs : List JVal)
  | obj (fields : List (String × JVal))

/-- Python dict subscript `v[k]`: some value only when `v` is an object
containing key `k` (first binding wins, as for parsed JSON). -/
def JVal.getKey? : JVal → String → Option JVal
  | .obj fs, k => (fs.find? (fun p => p.1 = k)).map (fun p => p.2)
  | _, _ => none

/-- Python truthiness of a JSON value (`if not packet[...]`). -/
def JVal.truthy : JVal → Bool
  | .null => false
  | .bool b => b
  | .num q => decide (q ≠ 0)
  | .str s => decide (s ≠ "")
  | .arr xs => !xs.isEmpty
  | .obj fs => !fs.isEmpty

/-- Python `v == "s"` for a JSON value against a string literal. -/
def JVal.isStrEq : JVal → String → Bool
  | .str t, s => decide (t = s)
  | _, _ => false

/-- The exceptions the client can raise.  The spec names them abstractly:
`protocolError` is the generic Exception raised on an unexpected message
class, `notActive` is the UserWarning raised for inactive reports,
`noFix` is NoFixError with its reason string, `lookupError` covers the
KeyError / IndexError / TypeError raised by dynamic subscripting,
`formatError` is the ValueError from strptime, and `eof` models the
transport failing to deliver a further line. -/
inductive Err where
  | notActive
  | lookupError
  | protocolError
  | noFix (reason : String)
  | formatError
  | eof
deriving DecidableEq, Repr

/-- The error-margin dict `self.error`: a Python dict from single-letter
keys to numbers, in insertion order. -/
abbrev ErrDict := List (String × ℚ)

/-- Python dict read `d[k]` on the error dict. -/
def dictGet? (d : ErrDict) (k : String) : Option ℚ :=
  (d.find? (fun p => p.1 = k)).map (fun p => p.2)

/-- Python dict write `d[k] = v`: overwrite in place when the key exists
(keeping insertion order), else append. -/
def dictSet (d : ErrDict) (k : String) (v : ℚ) : ErrDict :=
  if (d.find? (fun p => p.1 = k)).isSome then
    d.map (fun p => if p.1 = k then (k, v) else p)
  else
    d ++ [(k, v)]

/-- The navigational fields of a Gpsd instance (everything `__init__`
assigns plus `vdop`, which `__init__` leaves unset and only `from_json`
assigns — hence an `Option`). -/
structure GpsData where
  mode : ℚ
  sats : ℕ
  sats_valid : ℕ
  hdop : ℚ
  vdop : Option ℚ
  pdop : ℚ
  lon : ℚ
  lat : ℚ
  alt : ℚ
  track : ℚ
  hspeed : ℚ
  climb : ℚ
  time : String
  error : ErrDict
deriving DecidableEq, Repr

/-- The field values set by `Gpsd.__init__` (lines 83-96). -/
def initData : GpsData :=
  { mode := 0, sats := 0, sats_valid := 0, hdop := 0, vdop := none,
    pdop := 0, lon := 0, lat := 0, alt := 0, track := 0, hspeed := 0,
    climb := 0, time := "", error := [] }

/-- `t[k] if k in t else d` for a numeric field of an object. -/
def getNumOr (t : JVal) (k : String) (d : ℚ) : Except Err ℚ :=
  match t.getKey? k with
  | none => .ok d
  | some (.num q) => .ok q
  | some _ => .error .lookupError

/-- `t[k] if k in t else d` for a string field of an object. -/
def getStrOr (t : JVal) (k : String) (d : String) : Except Err String :=
  match t.getKey? k with
  | none => .ok d
  | some (.str s) => .ok s
  | some _ => .error .lookupError

/-- Count of satellites whose "used" field is truthy
(the list comprehension on line 124-125); fails on a satellite entry
without a "used" key. -/
def countUsed : List JVal → Except Err ℕ
  | [] => .ok 0
  | s :: rest =>
    match s.getKey? "used" with
    | none => .error .lookupError
    | some u => do
      let n ← countUsed rest
      .ok (if u.truthy then n + 1 else n)

/-- The sky-view part of `from_json` (lines 122-132): satellite counts and
the dilution-of-precision fields, from the last "sky" entry. -/
def parseSky (g : GpsData) (last_sky : JVal) : Except Err GpsData := do
  let g ← match last_sky.getKey? "satellites" with
    | some (.arr sats) => do
        let valid ← countUsed sats
        pure { g with sats := sats.length, sats_valid := valid }
    | some _ => .error .lookupError
    | none => pure { g with sats := 0, sats_valid := 0 }
  let hdop ← getNumOr last_sky "hdop" 0
  let vdop ← getNumOr last_sky "vdop" 0
  let pdop ← getNumOr last_sky "pdop" 0
  pure { g with hdop := hdop, vdop := some vdop, pdop := pdop }

/-- The mode-gated position/velocity part of `from_json`
(lines 134-162), from the last "tpv" entry. -/
def parseTpv (g : GpsData) (last_tpv : JVal) : Except Err GpsData := do
  let mode ←
    match last_tpv.getKey? "mode" with
    | some (.num q) => pure q
    | some _ => .error .lookupError
    | none => .error .lookupError
  let g := { g with mode := mode }
  let g ←
    if mode ≥ 2 then do
      let lon ← getNumOr last_tpv "lon" 0
      let lat ← getNumOr last_tpv "lat" 0
      let track ← getNumOr last_tpv "track" 0
      let hspeed ← getNumOr last_tpv "speed" 0
      let time ← getStrOr last_tpv "time" ""
      let eps ← getNumOr last_tpv "eps" 0
      let ept ← getNumOr last_tpv "ept" 0
      let epx ← getNumOr last_tpv "epx" 0
      let epy ← getNumOr last_tpv "epy" 0
      pure { g with lon := lon, lat := lat, track := track,
                    hspeed := hspeed, time := time,
                    error := [("c", 0), ("s", eps), ("t", ept),
                              ("v", 0), ("x", epx), ("y", epy)] }
    else pure g
  if mode ≥ 3 then do
    let alt ← getNumOr last_tpv "alt" 0
    let climb ← getNumOr last_tpv "climb" 0
    let epc ← getNumOr last_tpv "epc" 0
    let epv ← getNumOr last_tpv "epv" 0
    pure { g with alt := alt, climb := climb,
                  error := dictSet (dictSet g.error "c" epc) "v" epv }
  else pure g

/-- `packet[k][-1]`: last element of the array under key `k`; fails when
the key is absent, not an array, or the array is empty. -/
def lastOf (packet : JVal) (k : String) : Except Err JVal :=
  match packet.getKey? k with
  | some (.arr xs) =>
    match xs.getLast? with
    | some v => .ok v
    | none => .error .lookupError
  | some _ => .error .lookupError
  | none => .error .lookupError

/-- The field-assignment body of `Gpsd.from_json` (lines 117-164), acting
on the freshly constructed instance `g`: active check, extraction of the
last tpv and sky entries, then the sky and tpv field assignments. -/
def parseFields (g : GpsData) (packet : JVal) : Except Err GpsData := do
  let active ←
    match packet.getKey? "active" with
    | some v => pure v
    | none => .error .lookupError
  if !active.truthy then .error .notActive else do
  let last_tpv ← lastOf packet "tpv"
  let last_sky ← lastOf packet "sky"
  let g ← parseSky g last_sky
  parseTpv g last_tpv

/-- The class-level dict `Gpsd.modes` (lines 76-81), mapping a numeric
mode to its label; lookup of any other key raises KeyError (`none`). -/
def modes (m : ℚ) : Option String :=
  if m = 0 then some "No mode"
  else if m = 1 then some "No fix"
  else if m = 2 then some "2D fix"
  else if m = 3 then some "3D fix"
  else none

/-- `Gpsd.position` (lines 233-240): `(self.lat, self.lon)` behind the
2D-fix gate. -/
def position (g : GpsData) : Except Err (ℚ × ℚ) :=
  if g.mode < 2 then .error (.noFix "Needs at least 2D fix")
  else .ok (g.lat, g.lon)

/-- `Gpsd.altitude` (lines 242-249). -/
def altitude (g : GpsData) : Except Err ℚ :=
  if g.mode < 3 then .error (.noFix "Needs at least 3D fix")
  else .ok g.alt

/-- `Gpsd.movement` (lines 251-261): the returned Python dict, in
insertion order. -/
def movement (g : GpsData) : Except Err (List (String × ℚ)) :=
  if g.mode < 3 then .error (.noFix "Needs at least 3D fix")
  else .ok [("speed", g.hspeed), ("track", g.track), ("climb", g.climb)]

/-- `Gpsd.speed_vertical` (lines 263-273): 0 when `abs(self.climb)` is
below the climb error margin, else the raw climb; the margin read
`self.error["c"]` can raise KeyError. -/
def speed_vertical (g : GpsData) : Except Err ℚ :=
  if g.mode < 2 then .error (.noFix "Needs at least 2D fix")
  else
    match dictGet? g.error "c" with
    | none => .error .lookupError
    | some c => if |g.climb| < c then .ok 0 else .ok g.climb

/-- `Gpsd.speed` (lines 275-285): 0 when `self.hspeed` (signed, no abs)
is below the speed error margin, else the raw hspeed. -/
def speed (g : GpsData) : Except Err ℚ :=
  if g.mode < 2 then .error (.noFix "Needs at least 2D fix")
  else
    match dictGet? g.error "s" with
    | none => .error .lookupError
    | some s => if g.hspeed < s then .ok 0 else .ok g.hspeed

/-- `Gpsd.position_precision` (lines 287-296). -/
def position_precision (g : GpsData) : Except Err (ℚ × ℚ) :=
  if g.mode < 2 then .error (.noFix "Needs at least 2D fix")
  else
    match dictGet? g.error "x", dictGet? g.error "y", dictGet? g.error "v" with
    | some x, some y, some v => .ok (max x y, v)
    | _, _, _ => .error .lookupError

/-- `Gpsd.map_url` (lines 298-304).  Python str.format of the floats is
abstracted by `toString` on the rationals; no claim depends on the exact
digit rendering. -/
def map_url (g : GpsData) : Except Err String :=
  if g.mode < 2 then .error (.noFix "Needs at least 2D fix")
  else .ok ("https://www.openstreetmap.org/?mlat=" ++ toString g.lat ++
            "&mlon=" ++ toString g.lon ++ "&zoom=15")

/-- A parsed datetime value as produced by `datetime.datetime.strptime`;
`isLocal` records whether `astimezone` was applied (the wall-clock shift
it performs depends on the environment timezone and is abstracted). -/
structure PyDateTime where
  year : ℕ
  month : ℕ
  day : ℕ
  hour : ℕ
  minute : ℕ
  second : ℕ
  microsecond : ℕ
  isLocal : Bool
deriving DecidableEq, Repr

/-- Take up to `n` leading decimal digits of a character list. -/
def takeDigits : ℕ → List Char → List Char × List Char
  | 0, cs => ([], cs)
  | _ + 1, [] => ([], [])
  | n + 1, c :: cs =>
    if c.isDigit then
      let r := takeDigits n cs
      (c :: r.1, r.2)
    else ([], c :: cs)

/-- Numeric value of a list of decimal digits. -/
def digitsVal (ds : List Char) : ℕ :=
  ds.foldl (fun n c => 10 * n + (c.toNat - 48)) 0

/-- Match one literal character. -/
def litChar (c : Char) : List Char → Option (List Char)
  | d :: r => if d = c then some r else none
  | [] => none

/-- Match a 1-2 digit field whose value lies in `[lo, hi]`. -/
def numField (lo hi : ℕ) (cs : List Char) : Option (ℕ × List Char) :=
  let r := takeDigits 2 cs
  if r.1.isEmpty then none
  else
    let v := digitsVal r.1
    if lo ≤ v ∧ v ≤ hi then some (v, r.2) else none

/-- Days in a month, with leap years, as datetime validates.  -/
def daysInMonth (y m : ℕ) : ℕ :=
  if m = 2 then
    if y % 4 = 0 ∧ (y % 100 ≠ 0 ∨ y % 400 = 0) then 29 else 28
  else if m = 4 ∨ m = 6 ∨ m = 9 ∨ m = 11 then 30
  else 31

/-- `datetime.datetime.strptime(s, "%Y-%m-%dT%H:%M:%S.%fZ")`: a model of
the CPython parser for this fixed format string — 4-digit year, 1-2 digit
month/day/hour/minute/second within range, literal separators, a 1-6
digit fraction padded to microseconds, a literal Z, end of string.
`none` models the ValueError on mismatch. -/
def strptimeGps (s : String) : Option PyDateTime := do
  let cs := s.toList
  let ry := takeDigits 4 cs
  if ry.1.length ≠ 4 then none else do
  let y := digitsVal ry.1
  let cs ← litChar (Char.ofNat 45) ry.2
  let (m, cs) ← numField 1 12 cs
  let cs ← litChar (Char.ofNat 45) cs
  let (d, cs) ← numField 1 31 cs
  if d > daysInMonth y m then none else do
  let cs ← litChar (Char.ofNat 84) cs
  let (hh, cs) ← numField 0 23 cs
  let cs ← litChar (Char.ofNat 58) cs
  let (mm, cs) ← numField 0 59 cs
  let cs ← litChar (Char.ofNat 58) cs
  let (ss, cs) ← numField 0 61 cs
  let cs ← litChar (Char.ofNat 46) cs
  let rf := takeDigits 6 cs
  if rf.1.isEmpty then none else do
  let f := digitsVal rf.1 * 10 ^ (6 - rf.1.length)
  let cs ← litChar (Char.ofNat 90) rf.2
  if cs.isEmpty then
    some { year := y, month := m, day := d, hour := hh, minute := mm,
           second := ss, microsecond := f, isLocal := false }
  else none

/-- `Gpsd.get_time` (lines 306-319): gate, strptime of `self.time`, and
optional conversion to the local timezone (modelled by the `isLocal`
flag; the environment-dependent clock shift is abstracted). -/
def get_time (g : GpsData) (local_time : Bool) : Except Err PyDateTime :=
  if g.mode < 2 then .error (.noFix "Needs at least 2D fix")
  else
    match strptimeGps g.time with
    | none => .error .formatError
    | some dt => .ok (if local_time then { dt with isLocal := true } else dt)

/-- `Gpsd.get_mode` (lines 321-327): below a 2D fix it indexes the
`modes` dict (KeyError for keys outside 0-3); at 2 and 3 it returns the
capitalised literals; any other mode falls off the end of the function
and returns Python None. -/
def get_mode (g : GpsData) : Except Err (Option String) :=
  if g.mode < 2 then
    match modes g.mode with
    | some l => .ok (some l)
    | none => .error .lookupError
  else if g.mode = 2 then .ok (some "2D Fix")
  else if g.mode = 3 then .ok (some "3D Fix")
  else .ok none

/-- The observable state of one `Gpsd` instance: the navigational data
fields, whether `gpsd_socket` / `gpsd_stream` hold a handle (not None),
and the `state` dict entries "devices" and "watch". -/
structure Client where
  data : GpsData
  socketOpen : Bool
  streamOpen : Bool
  devices : Option JVal
  watch : Option JVal

/-- One observable side effect of the client. -/
inductive Ev where
  | sockConnect (host : String) (port : ℕ)
  | sockShutdown
  | sockClose
  | streamClose
  | sendLine (s : String)
  | recvLine
  | printLine (s : String)
deriving DecidableEq, Repr

/-- A fresh instance before `__init__` runs `self.connect`: data fields
at their defaults, no handles, empty state dict. -/
def initClient : Client :=
  { data := initData, socketOpen := false, streamOpen := false,
    devices := none, watch := none }

/-- Outcome of an effectful method call: the instance state after the
call (also when it raised), the I/O trace, and the result or exception. -/
structure CallResult (α : Type) where
  client : Client
  events : List Ev
  value : Except Err α

/-- `Gpsd.disconnect` (lines 195-206): shut down and drop each handle
that is held, then clear the state dict.  Always succeeds. -/
def disconnect (c : Client) : Client × List Ev :=
  let p1 :=
    if c.socketOpen then
      ({ c with socketOpen := false }, [Ev.sockShutdown, Ev.sockClose])
    else (c, [])
  let p2 :=
    if p1.1.streamOpen then
      ({ p1.1 with streamOpen := false }, [Ev.streamClose])
    else (p1.1, ([] : List Ev))
  ({ p2.1 with devices := none, watch := none }, p1.2 ++ p2.2)

/-- `Gpsd._parse_state_packet` (lines 208-217): store a DEVICES or WATCH
announcement in the state dict, raise the protocol Exception on any
other class.  The empty-devices case only logs a warning. -/
def parseStatePacket (c : Client) (j : JVal) : Except Err Client :=
  match j.getKey? "class" with
  | none => .error .lookupError
  | some cl =>
    if cl.isStrEq "DEVICES" then
      match j.getKey? "devices" with
      | none => .error .lookupError
      | some _ => .ok { c with devices := some j }
    else if cl.isStrEq "WATCH" then .ok { c with watch := some j }
    else .error .protocolError

/-- The `for i in range(0, 2)` loop of `connect` (lines 190-193),
generalised over the iteration count: read a line and feed it to
`_parse_state_packet`, stopping at the first exception. -/
def readStatePackets : Client → List JVal → ℕ → Client × List Ev × Except Err Unit
  | c, _, 0 => (c, [], .ok ())
  | c, [], _ + 1 => (c, [Ev.recvLine], .error .eof)
  | c, j :: rest, n + 1 =>
    match parseStatePacket c j with
    | .error e => (c, [Ev.recvLine], .error e)
    | .ok c2 =>
      let r := readStatePackets c2 rest n
      (r.1, Ev.recvLine :: r.2.1, r.2.2)

/-- The watch-enable line sent on line 187. -/
def watchCommand : String := "?WATCH=\x7b\"enable\":true\x7d\n"

/-- `Gpsd.connect` (lines 166-193): disconnect first if a handle is held
(with the stray print), open socket and stream, read the welcome line
(raising the protocol Exception unless its class equals "VERSION"), send
the watch command, then read two state packets.  `input` is the sequence
of parsed JSON lines the daemon sends. -/
def connect (c : Client) (host : String) (port : ℕ) (input : List JVal) :
    CallResult Unit :=
  let s0 :=
    if c.socketOpen || c.streamOpen then
      let d := disconnect c
      (d.1, d.2 ++ [Ev.printLine "get disconnect"])
    else (c, ([] : List Ev))
  let c1 := { s0.1 with socketOpen := true, streamOpen := true }
  let evs := s0.2 ++ [Ev.sockConnect host port, Ev.recvLine]
  match input with
  | [] => ⟨c1, evs, .error .eof⟩
  | welcome :: rest =>
    match welcome.getKey? "class" with
    | none => ⟨c1, evs, .error .lookupError⟩
    | some cl =>
      if !cl.isStrEq "VERSION" then ⟨c1, evs, .error .protocolError⟩
      else
        let r := readStatePackets c1 rest 2
        ⟨r.1, evs ++ [Ev.sendLine watchCommand] ++ r.2.1, r.2.2⟩

/-- `Gpsd.__init__` (lines 83-98): set the defaults, then immediately
`self.connect(host, port)` with the caller-supplied (or default)
host and port. -/
def gpsdNew (host : String) (port : ℕ) (input : List JVal) : CallResult Unit :=
  connect initClient host port input

/-- `Gpsd.from_json` (lines 109-164) in full: `result = cls()` runs the
constructor — hence a fresh connection to the default host and port,
consuming network `input` — and only then the field assignments
(`parseFields`) run on the new instance. -/
def from_json (packet : JVal) (input : List JVal) : CallResult GpsData :=
  let r := gpsdNew "127.0.0.1" 2947 input
  match r.value with
  | .error e => ⟨r.client, r.events, .error e⟩
  | .ok _ =>
    match parseFields r.client.data packet with
    | .error e => ⟨r.client, r.events, .error e⟩
    | .ok d => ⟨{ r.client with data := d }, r.events, .ok d⟩

/-- `Gpsd.device` (lines 329-337): path, bps and driver of the first
entry of the stored DEVICES announcement; raises KeyError / IndexError /
TypeError (all `lookupError`) when the state dict has no "devices"
entry, the announcement has no device array, or the array is empty. -/
def device (c : Client) : Except Err (JVal × JVal × JVal) :=
  match c.devices with
  | none => .error .lookupError
  | some j =>
    match j.getKey? "devices" with
    | some (.arr (d :: _)) =>
      match d.getKey? "path" with
      | none => .error .lookupError
      | some p =>
        match d.getKey? "bps" with
        | none => .error .lookupError
        | some b =>
          match d.getKey? "driver" with
          | none => .error .lookupError
          | some dr => .ok (p, b, dr)
    | some (.arr []) => .error .lookupError
    | some _ => .error .lookupError
    | none => .error .lookupError

/-- The numeric mode field of the last tpv entry of a report, when the
report has one. -/
def lastTpvMode? (packet : JVal) : Option ℚ :=
  match lastOf packet "tpv" with
  | .ok t =>
    match t.getKey? "mode" with
    | some (.num q) => some q
    | _ => none
  | .error _ => none

/-- The session state holds a DEVICES announcement with a non-empty
device array. -/
def hasNonemptyDeviceList (c : Client) : Prop :=
  ∃ j d ds, c.devices = some j ∧ j.getKey? "devices" = some (JVal.arr (d :: ds))

/-- A well-formed handshake: VERSION welcome, then a DEVICES announcement
(with an empty device array) and a WATCH acknowledgment. -/
def goodInput : List JVal :=
  [ .obj [("class", .str "VERSION")],
    .obj [("class", .str "DEVICES"), ("devices", .arr [])],
    .obj [("class", .str "WATCH")] ]

/-- An active report with a single tpv entry carrying `fs` and a single
empty sky entry. -/
def tpvPacket (fs : List (String × JVal)) : JVal :=
  .obj [("active", .bool true),
        ("tpv", .arr [.obj fs]),
        ("sky", .arr [.obj []])]

/-- A minimal active report whose single tpv entry only carries a mode. -/
def modePacket (m : ℚ) : JVal := tpvPacket [("mode", .num m)]

/-- The error dict produced for a bare report at fix quality 2 or 3:
all six keys present, each 0. -/
def sixZeros : ErrDict :=
  [("c", 0), ("s", 0), ("t", 0), ("v", 0), ("x", 0), ("y", 0)]

/-- Snapshot parsed from `modePacket 0`. -/
def snap0 : GpsData := { initData with vdop := some 0 }

/-- Snapshot parsed from `modePacket 1`. -/
def snap1 : GpsData := { initData with mode := 1, vdop := some 0 }

/-- Snapshot parsed from `modePacket 2`. -/
def snap2 : GpsData :=
  { initData with mode := 2, vdop := some 0, error := sixZeros }

/-- Snapshot parsed from `modePacket 3`. -/
def snap3 : GpsData :=
  { initData with mode := 3, vdop := some 0, error := sixZeros }

/-- Snapshot parsed from `modePacket 7` (out-of-range mode passed through). -/
def snap7 : GpsData :=
  { initData with mode := 7, vdop := some 0, error := sixZeros }

/-- Snapshot parsed from `modePacket (-1)` (negative mode passed through). -/
def snapNeg1 : GpsData := { initData with mode := -1, vdop := some 0 }

/-- A 2D-fix report moving at -5 m/s with a 1 m/s speed error margin. -/
def pktC1neg : JVal :=
  tpvPacket [("mode", .num 2), ("speed", .num (-5)), ("eps", .num 1)]

/-- Snapshot parsed from `pktC1neg`. -/
def snapC1neg : GpsData :=
  { initData with
    mode := 2, hspeed := -5, vdop := some 0,
    error := [("c", 0), ("s", 1), ("t", 0), ("v", 0), ("x", 0), ("y", 0)] }

/-- A 2D-fix report moving at +5 m/s with a 1 m/s speed error margin. -/
def pktC1pos : JVal :=
  tpvPacket [("mode", .num 2), ("speed", .num 5), ("eps", .num 1)]

/-- Snapshot parsed from `pktC1pos`. -/
def snapC1pos : GpsData :=
  { initData with
    mode := 2, hspeed := 5, vdop := some 0,
    error := [("c", 0), ("s", 1), ("t", 0), ("v", 0), ("x", 0), ("y", 0)] }

/-- A welcome line whose class is "TPV" instead of "VERSION". -/
def tpvWelcome : JVal := .obj [("class", .str "TPV")]

/-- A report whose active flag is false. -/
def inactivePacket : JVal := .obj [("active", .bool false)]

/-- One device entry as gpsd announces it. -/
def devEntry : JVal :=
  .obj [("path", .str "/dev/ttyS0"), ("bps", .num 9600),
        ("driver", .str "NMEA")]

/-- A DEVICES announcement holding one device. -/
def devJson : JVal :=
  .obj [("class", .str "DEVICES"), ("devices", .arr [devEntry])]

/-- A client whose session state holds `devJson`. -/
def clientWithDevice : Client := { initClient with devices := some devJson }

theorem parseSky_preserves (g : GpsData) (sky : JVal) (g1 : GpsData)
    (h : parseSky g sky = .ok g1) :
    g1.mode = g.mode ∧ g1.lon = g.lon ∧ g1.lat = g.lat ∧ g1.alt = g.alt ∧
    g1.track = g.track ∧ g1.hspeed = g.hspeed ∧ g1.climb = g.climb ∧
    g1.time = g.time ∧ g1.error = g.error := by
  unfold parseSky at h
  simp only [bind, Except.bind, pure, Except.pure] at h
  repeat' split at h
  all_goals first
    | exact Except.noConfusion h
    | (injection h with h; subst h; simp)

theorem parseTpv_mode (g : GpsData) (t : JVal) (g2 : GpsData)
    (h : parseTpv g t = .ok g2) :
    t.getKey? "mode" = some (.num g2.mode) := by
  unfold parseTpv at h
  simp only [bind, Except.bind, pure, Except.pure] at h
  repeat' split at h
  all_goals first
    | exact Except.noConfusion h
    | (injection h with h; subst h; simp_all)

theorem parseTpv_lt2 (g : GpsData) (t : JVal) (g2 : GpsData)
    (h : parseTpv g t = .ok g2) (hm : g2.mode < 2) :
    g2 = { g with mode := g2.mode } := by
  unfold parseTpv at h
  simp only [bind, Except.bind, pure, Except.pure] at h
  repeat' split at h
  all_goals first
    | exact Except.noConfusion h
    | (injection h with h; subst h; simp_all; try linarith)

theorem parseTpv_error_shape (g : GpsData) (t : JVal) (g2 : GpsData)
    (h : parseTpv g t = .ok g2) (hm : 2 ≤ g2.mode) :
    g2.error.map (fun p => p.1) = ["c", "s", "t", "v", "x", "y"] ∧
    (g2.mode < 3 → dictGet? g2.error "c" = some 0 ∧ dictGet? g2.error "v" = some 0) ∧
    (∃ s, dictGet? g2.error "s" = some s) ∧
    (∃ c, dictGet? g2.error "c" = some c) := by
  unfold parseTpv at h
  simp only [bind, Except.bind, pure, Except.pure] at h
  repeat' split at h
  all_goals first
    | exact Except.noConfusion h
    | (injection h with h; subst h; simp_all [dictGet?, dictSet, List.find?]; try linarith)

theorem parseFields_inv (g : GpsData) (p : JVal) (g2 : GpsData)
    (h : parseFields g p = .ok g2) :
    ∃ a t s g1, p.getKey? "active" = some a ∧ a.truthy = true ∧
      lastOf p "tpv" = .ok t ∧ lastOf p "sky" = .ok s ∧
      parseSky g s = .ok g1 ∧ parseTpv g1 t = .ok g2 := by
  unfold parseFields at h
  simp only [bind, Except.bind, pure, Except.pure] at h
  repeat' split at h
  all_goals try exact Except.noConfusion h
  rename_i x3 a ha htr x2 t ht x1 s hs x0 g1 hg1
  exact ⟨a, t, s, g1, ha, by simpa using htr, ht, hs, hg1, h⟩

theorem parseFields_notActive (g : GpsData) (p v : JVal)
    (ha : p.getKey? "active" = some v) (htr : v.truthy = false) :
    parseFields g p = .error .notActive := by
  unfold parseFields
  simp [ha, htr]

theorem disconnect_data (c : Client) : (disconnect c).1.data = c.data := by
  cases hs : c.socketOpen <;> cases ht : c.streamOpen <;> simp [disconnect, hs, ht]

theorem parseStatePacket_data (c : Client) (j : JVal) (c2 : Client)
    (h : parseStatePacket c j = .ok c2) : c2.data = c.data := by
  unfold parseStatePacket at h
  repeat' split at h
  all_goals first
    | exact Except.noConfusion h
    | (injection h with h; subst h; simp)

theorem readStatePackets_data (c : Client) (inp : List JVal) (n : ℕ) :
    (readStatePackets c inp n).1.data = c.data := by
  induction n generalizing c inp with
  | zero => cases inp <;> rfl
  | succ n ih =>
    cases inp with
    | nil => rfl
    | cons j rest =>
      unfold readStatePackets
      cases hp : parseStatePacket c j with
      | error e => simp
      | ok c2 => simpa using (ih c2 rest).trans (parseStatePacket_data c j c2 hp)

theorem connect_data (c : Client) (h : String) (p : ℕ) (inp : List JVal) :
    (connect c h p inp).client.data = c.data := by
  unfold connect
  repeat' split
  all_goals simp [disconnect_data, readStatePackets_data]

theorem from_json_ok (packet : JVal) (input : List JVal) (d : GpsData)
    (h : (from_json packet input).value = .ok d) :
    parseFields initData packet = .ok d := by
  have hd : (gpsdNew "127.0.0.1" 2947 input).client.data = initData :=
    connect_data initClient "127.0.0.1" 2947 input
  simp only [from_json] at h
  rw [hd] at h
  cases hv : (gpsdNew "127.0.0.1" 2947 input).value with
  | error e => rw [hv] at h; simp at h
  | ok u =>
    rw [hv] at h
    cases hp : parseFields initData packet with
    | error e => rw [hp] at h; simp at h
    | ok d0 => rw [hp] at h; simp_all

theorem connect_fresh_events_head (h : String) (p : ℕ) (input : List JVal) :
    (connect initClient h p input).events.head? = some (Ev.sockConnect h p) := by
  unfold connect
  cases input with
  | nil => simp [initClient]
  | cons w rest =>
    cases hc : w.getKey? "class" with
    | none => simp [initClient, hc]
    | some cl => by_cases hv : cl.isStrEq "VERSION" <;> simp [initClient, hc, hv]

theorem from_json_events_head (packet : JVal) (input : List JVal) :
    (from_json packet input).events.head? = some (Ev.sockConnect "127.0.0.1" 2947) := by
  have hh := connect_fresh_events_head "127.0.0.1" 2947 input
  simp only [from_json]
  cases hv : (gpsdNew "127.0.0.1" 2947 input).value with
  | error e => simpa [gpsdNew] using hh
  | ok u =>
    cases hp : parseFields (gpsdNew "127.0.0.1" 2947 input).client.data packet with
    | error e => simpa [gpsdNew] using hh
    | ok d => simpa [gpsdNew] using hh

/-- Claim C2: the report parser is claimed to be a pure function of the
payload, but `from_json` begins by running the constructor, whose
`__init__` calls `connect`: for every payload and every network input its
I/O trace starts by opening a TCP socket to the default host 127.0.0.1
port 2947, and on a well-formed handshake the full trace is
connect, read welcome, send watch command, read, read. -/
theorem C2_from_json_performs_io (packet : JVal) (input : List JVal) :
    (from_json packet input).events.head? = some (Ev.sockConnect "127.0.0.1" 2947) ∧
    (from_json packet goodInput).events =
      [Ev.sockConnect "127.0.0.1" 2947, Ev.recvLine,
       Ev.sendLine watchCommand, Ev.recvLine, Ev.recvLine] := by
  constructor
  · exact from_json_events_head packet input
  · have hv : (gpsdNew "127.0.0.1" 2947 goodInput).value = .ok () := rfl
    simp only [from_json, hv]
    cases hp : parseFields (gpsdNew "127.0.0.1" 2947 goodInput).client.data packet with
    | error e => simp only [hp]; rfl
    | ok d => simp only [hp]; rfl

/-- Claim C3 (amended): when the first handshake line's class is not
"VERSION", `connect` on a fresh client raises the protocol error, but
the freshly opened socket and stream handles are retained (the state
does not revert to Disconnected); only the session state stays empty. -/
theorem C3_bad_welcome_amended (host : String) (port : ℕ) (w cl : JVal)
    (rest : List JVal) (hcl : w.getKey? "class" = some cl)
    (hne : cl.isStrEq "VERSION" = false) :
    (connect initClient host port (w :: rest)).value = .error .protocolError ∧
    (connect initClient host port (w :: rest)).client.socketOpen = true ∧
    (connect initClient host port (w :: rest)).client.streamOpen = true ∧
    (connect initClient host port (w :: rest)).client.devices = none ∧
    (connect initClient host port (w :: rest)).client.watch = none := by
  unfold connect
  simp [initClient, hcl, hne]

/-- Claim C3 witness: the amended statement at a concrete handshake whose
first line has class "TPV". -/
theorem C3_bad_welcome_amended_witness :
    (connect initClient "127.0.0.1" 2947 [tpvWelcome]).value = .error .protocolError ∧
    (connect initClient "127.0.0.1" 2947 [tpvWelcome]).client.socketOpen = true ∧
    (connect initClient "127.0.0.1" 2947 [tpvWelcome]).client.streamOpen = true ∧
    (connect initClient "127.0.0.1" 2947 [tpvWelcome]).client.devices = none ∧
    (connect initClient "127.0.0.1" 2947 [tpvWelcome]).client.watch = none :=
  C3_bad_welcome_amended "127.0.0.1" 2947 tpvWelcome (.str "TPV") [] (by rfl) (by rfl)

/-- Claim C3 counterexample: on the handshake whose first line has class
"TPV", `connect` does fail with the protocol error, yet the socket and
stream handles are still held afterwards — the claim that no Connection
Handle is retained (state reverts to Disconnected) is false. -/
theorem C3_counterexample_handles_retained :
    (connect initClient "127.0.0.1" 2947 [tpvWelcome]).value = .error .protocolError ∧
    (connect initClient "127.0.0.1" 2947 [tpvWelcome]).client.socketOpen = true ∧
    (connect initClient "127.0.0.1" 2947 [tpvWelcome]).client.streamOpen = true :=
  ⟨rfl, rfl, rfl⟩

/-- Claim C5: when the session state holds no non-empty device list
(no DEVICES announcement stored, no device array in it, or an empty
one), `device` raises the lookup failure the spec calls NoDeviceError;
when the stored list is non-empty it returns the path, bps and driver of
the first device. -/
theorem C5_device_info (c : Client) :
    (¬ hasNonemptyDeviceList c → device c = .error .lookupError) ∧
    (∀ j d ds p b dr, c.devices = some j →
      j.getKey? "devices" = some (JVal.arr (d :: ds)) →
      d.getKey? "path" = some p → d.getKey? "bps" = some b →
      d.getKey? "driver" = some dr → device c = .ok (p, b, dr)) := by
  constructor
  · intro hno
    unfold device
    cases hd : c.devices with
    | none => rfl
    | some j =>
      cases hk : j.getKey? "devices" with
      | none => simp [hk]
      | some v =>
        cases v with
        | arr xs =>
          cases xs with
          | nil => simp [hk]
          | cons d ds => exact absurd ⟨j, d, ds, hd, hk⟩ hno
        | null => simp [hk]
        | bool b => simp [hk]
        | num q => simp [hk]
        | str s => simp [hk]
        | obj fs => simp [hk]
  · intro j d ds p b dr hd hk hp hb hdr
    unfold device
    rw [hd]
    simp [hk, hp, hb, hdr]

/-- Claim C5 witness: a fresh client (no DEVICES announcement) fails;
a client holding one device returns its path, bps and driver. -/
theorem C5_device_info_witness :
    device initClient = .error .lookupError ∧
    device clientWithDevice =
      .ok (.str "/dev/ttyS0", .num 9600, .str "NMEA") :=
  ⟨(C5_device_info initClient).1
     (by rintro ⟨j, d, ds, hj, hk⟩; exact Option.noConfusion hj),
   (C5_device_info clientWithDevice).2 devJson devEntry [] _ _ _
     rfl rfl rfl rfl rfl⟩

/-- Claim C7: a report whose active flag is false makes the parse fail
with the not-active error (the spec's NotActiveError) and no snapshot is
ever produced: `parseFields` raises it from any starting state, and
`from_json` raises it whenever its constructor connection succeeds and
never returns a snapshot for such a report. -/
theorem C7_not_active (g : GpsData) (packet v : JVal)
    (ha : packet.getKey? "active" = some v) (htr : v.truthy = false) :
    parseFields g packet = .error .notActive ∧
    (∀ input, (gpsdNew "127.0.0.1" 2947 input).value = .ok () →
      (from_json packet input).value = .error .notActive) ∧
    (∀ input d, (from_json packet input).value ≠ .ok d) := by
  have hpf : ∀ g2 : GpsData, parseFields g2 packet = .error .notActive :=
    fun g2 => parseFields_notActive g2 packet v ha htr
  refine ⟨hpf g, fun input hok => ?_, fun input d hok => ?_⟩
  · simp [from_json, hok, hpf]
  · have hbridge := from_json_ok packet input d hok
    rw [hpf initData] at hbridge
    exact Except.noConfusion hbridge

/-- Claim C7 witness: the inactive report at a concrete input, with a
successful constructor handshake. -/
theorem C7_not_active_witness :
    parseFields initData inactivePacket = .error .notActive ∧
    (from_json inactivePacket goodInput).value = .error .notActive :=
  ⟨(C7_not_active initData inactivePacket (.bool false) rfl rfl).1,
   (C7_not_active initData inactivePacket (.bool false) rfl rfl).2.1
     goodInput (by rfl)⟩

/-- Claim C8: on a snapshot whose fix quality is 0 or 1, each of the six
2D-gated queries fails with the insufficient-fix error carrying the
reason string "Needs at least 2D fix" and returns no value. -/
theorem C8_gated_queries_noFix (g : GpsData) (hm : g.mode = 0 ∨ g.mode = 1) :
    position g = .error (.noFix "Needs at least 2D fix") ∧
    speed g = .error (.noFix "Needs at least 2D fix") ∧
    speed_vertical g = .error (.noFix "Needs at least 2D fix") ∧
    position_precision g = .error (.noFix "Needs at least 2D fix") ∧
    map_url g = .error (.noFix "Needs at least 2D fix") ∧
    ∀ local_time, get_time g local_time = .error (.noFix "Needs at least 2D fix") := by
  have hlt : g.mode < 2 := by rcases hm with h | h <;> rw [h] <;> norm_num
  refine ⟨?_, ?_, ?_, ?_, ?_, fun lt => ?_⟩ <;>
    simp [position, speed, speed_vertical, position_precision, map_url,
          get_time, hlt]

/-- Claim C8 witness: the six gated queries on the no-mode snapshot
parsed from a bare report. -/
theorem C8_gated_queries_noFix_witness :
    position snap0 = .error (.noFix "Needs at least 2D fix") ∧
    speed snap0 = .error (.noFix "Needs at least 2D fix") ∧
    speed_vertical snap0 = .error (.noFix "Needs at least 2D fix") ∧
    position_precision snap0 = .error (.noFix "Needs at least 2D fix") ∧
    map_url snap0 = .error (.noFix "Needs at least 2D fix") ∧
    ∀ local_time, get_time snap0 local_time = .error (.noFix "Needs at least 2D fix") :=
  C8_gated_queries_noFix snap0 (Or.inl (by decide))

/-- Claim C9: reading the fix label of a parsed snapshot yields
"No mode", "No fix", "2D Fix", "3D Fix" for fix qualities 0, 1, 2, 3
respectively. -/
theorem C9_fix_labels (packet : JVal) (input : List JVal) (d : GpsData)
    (h : (from_json packet input).value = .ok d) :
    (d.mode = 0 → get_mode d = .ok (some "No mode")) ∧
    (d.mode = 1 → get_mode d = .ok (some "No fix")) ∧
    (d.mode = 2 → get_mode d = .ok (some "2D Fix")) ∧
    (d.mode = 3 → get_mode d = .ok (some "3D Fix")) := by
  refine ⟨fun hx => ?_, fun hx => ?_, fun hx => ?_, fun hx => ?_⟩ <;>
    norm_num [get_mode, modes, hx]

/-- Claim C9 witness: the four labels on the snapshots parsed from bare
reports of mode 0, 1, 2 and 3. -/
theorem C9_fix_labels_witness :
    get_mode snap0 = .ok (some "No mode") ∧
    get_mode snap1 = .ok (some "No fix") ∧
    get_mode snap2 = .ok (some "2D Fix") ∧
    get_mode snap3 = .ok (some "3D Fix") :=
  ⟨(C9_fix_labels (modePacket 0) goodInput snap0 (by rfl)).1 (by decide),
   (C9_fix_labels (modePacket 1) goodInput snap1 (by rfl)).2.1 (by decide),
   (C9_fix_labels (modePacket 2) goodInput snap2 (by rfl)).2.2.1 (by decide),
   (C9_fix_labels (modePacket 3) goodInput snap3 (by rfl)).2.2.2 (by decide)⟩

/-- Claim C10: the parser copies any numeric mode verbatim into the
snapshot, and the label query is partial outside 0-3: at fix quality at
least 4 it returns Python None, and below 0 it raises the KeyError of the
modes dict lookup instead of returning a label. -/
theorem C10_mode_passthrough_partial_label (packet : JVal) (input : List JVal)
    (d : GpsData) (h : (from_json packet input).value = .ok d) :
    (4 ≤ d.mode → get_mode d = .ok none) ∧
    (d.mode < 0 → get_mode d = .error .lookupError) ∧
    (∀ m, lastTpvMode? packet = some m → d.mode = m) := by
  refine ⟨fun h4 => ?_, fun hneg => ?_, fun m hm => ?_⟩
  · have h1 : ¬ d.mode < 2 := by linarith
    have h2 : d.mode ≠ 2 := by intro he; rw [he] at h4; norm_num at h4
    have h3 : d.mode ≠ 3 := by intro he; rw [he] at h4; norm_num at h4
    simp [get_mode, h1, h2, h3]
  · have hlt : d.mode < 2 := by linarith
    have e0 : d.mode ≠ 0 := by intro he; rw [he] at hneg; norm_num at hneg
    have e1 : d.mode ≠ 1 := by intro he; rw [he] at hneg; norm_num at hneg
    have e2 : d.mode ≠ 2 := by intro he; rw [he] at hneg; norm_num at hneg
    have e3 : d.mode ≠ 3 := by intro he; rw [he] at hneg; norm_num at hneg
    simp [get_mode, modes, hlt, e0, e1, e2, e3]
  · have hp := from_json_ok packet input d h
    obtain ⟨a, t, s, g1, ha, htr, ht, hs, hsky, htpv⟩ :=
      parseFields_inv initData packet d hp
    have hmode := parseTpv_mode g1 t d htpv
    unfold lastTpvMode? at hm
    rw [ht] at hm
    simp [hmode] at hm
    exact hm

/-- Claim C10 witness: parsing bare reports of mode 7 and mode -1 and
querying the label. -/
theorem C10_mode_passthrough_partial_label_witness :
    get_mode snap7 = .ok none ∧
    get_mode snapNeg1 = .error .lookupError ∧
    snap7.mode = 7 :=
  ⟨(C10_mode_passthrough_partial_label (modePacket 7) goodInput snap7
      (by rfl)).1 (by decide),
   (C10_mode_passthrough_partial_label (modePacket (-1)) goodInput snapNeg1
      (by rfl)).2.1 (by decide),
   (C10_mode_passthrough_partial_label (modePacket 7) goodInput snap7
      (by rfl)).2.2 7 (by rfl)⟩

/-- Claim C6: a parsed report whose last tpv entry has mode below 2
leaves longitude, latitude, altitude, track, horizontal speed, climb,
timestamp text and the error dict at their constructor defaults. -/
theorem C6_low_fix_defaults (packet : JVal) (input : List JVal) (d : GpsData)
    (m : ℚ) (h : (from_json packet input).value = .ok d)
    (hm : lastTpvMode? packet = some m) (hlt : m < 2) :
    d.lon = 0 ∧ d.lat = 0 ∧ d.alt = 0 ∧ d.track = 0 ∧ d.hspeed = 0 ∧
    d.climb = 0 ∧ d.time = "" ∧ d.error = [] := by
  have hp := from_json_ok packet input d h
  obtain ⟨a, t, s, g1, ha, htr, ht, hs, hsky, htpv⟩ :=
    parseFields_inv initData packet d hp
  have hmode := parseTpv_mode g1 t d htpv
  have hdm : d.mode = m := by
    unfold lastTpvMode? at hm
    rw [ht] at hm
    simp [hmode] at hm
    exact hm
  have hlt2 : d.mode < 2 := hdm ▸ hlt
  have hstruct := parseTpv_lt2 g1 t d htpv hlt2
  obtain ⟨-, hlon, hlat, halt, htrack, hsp, hcl, htime, herr⟩ :=
    parseSky_preserves initData s g1 hsky
  simp only [initData] at hlon hlat halt htrack hsp hcl htime herr
  rw [hstruct]
  exact ⟨hlon, hlat, halt, htrack, hsp, hcl, htime, herr⟩

/-- Claim C6 witness: the defaults on the snapshot parsed from a bare
mode-1 report. -/
theorem C6_low_fix_defaults_witness :
    snap1.lon = 0 ∧ snap1.lat = 0 ∧ snap1.alt = 0 ∧ snap1.track = 0 ∧
    snap1.hspeed = 0 ∧ snap1.climb = 0 ∧ snap1.time = "" ∧ snap1.error = [] :=
  C6_low_fix_defaults (modePacket 1) goodInput snap1 1 (by rfl) (by rfl)
    (by norm_num)

/-- Claim C1 counterexample: the snapshot parsed from a 2D-fix report
with horizontal speed -5 m/s and speed error margin 1 m/s has an
absolute speed magnitude of 5, not below the margin, so the claim
demands `speed()` return the raw -5; the code compares the signed value
and returns 0 instead. -/
theorem C1_counterexample_speed_signed :
    (from_json pktC1neg goodInput).value = .ok snapC1neg ∧
    2 ≤ snapC1neg.mode ∧
    dictGet? snapC1neg.error "s" = some 1 ∧
    ¬ |snapC1neg.hspeed| < 1 ∧
    snapC1neg.hspeed ≠ 0 ∧
    speed snapC1neg = .ok 0 := by
  refine ⟨by rfl, by norm_num [snapC1neg], by rfl, ?_, by norm_num [snapC1neg], by rfl⟩
  norm_num [snapC1neg]

/-- Claim C1 (amended): on every parsed snapshot of fix quality at least
2, `speed()` returns 0 when the signed horizontal speed (not its
absolute magnitude) is strictly below the speed error margin and the raw
value otherwise, while `verticalSpeed()` returns 0 when the absolute
magnitude of the climb rate is strictly below the climb error margin and
the raw climb otherwise. -/
theorem C1_speed_filters_amended (packet : JVal) (input : List JVal)
    (d : GpsData) (h : (from_json packet input).value = .ok d)
    (hm : 2 ≤ d.mode) :
    ∃ s c, dictGet? d.error "s" = some s ∧ dictGet? d.error "c" = some c ∧
      speed d = .ok (if d.hspeed < s then 0 else d.hspeed) ∧
      speed_vertical d = .ok (if |d.climb| < c then 0 else d.climb) := by
  have hp := from_json_ok packet input d h
  obtain ⟨a, t, sk, g1, ha, htr, ht, hs, hsky, htpv⟩ :=
    parseFields_inv initData packet d hp
  obtain ⟨-, -, ⟨s, hsv⟩, ⟨c, hcv⟩⟩ := parseTpv_error_shape g1 t d htpv hm
  have hgate : ¬ d.mode < 2 := by linarith
  refine ⟨s, c, hsv, hcv, ?_, ?_⟩
  · unfold speed
    rw [if_neg hgate, hsv]
    by_cases hlt : d.hspeed < s <;> simp [hlt]
  · unfold speed_vertical
    rw [if_neg hgate, hcv]
    by_cases hlt : |d.climb| < c <;> simp [hlt]

/-- Claim C1 witness: the amended statement on the snapshot parsed from
a 2D-fix report with speed +5 m/s and margin 1 m/s. -/
theorem C1_speed_filters_amended_witness :
    ∃ s c, dictGet? snapC1pos.error "s" = some s ∧
      dictGet? snapC1pos.error "c" = some c ∧
      speed snapC1pos = .ok (if snapC1pos.hspeed < s then 0 else snapC1pos.hspeed) ∧
      speed_vertical snapC1pos =
        .ok (if |snapC1pos.climb| < c then 0 else snapC1pos.climb) :=
  C1_speed_filters_amended pktC1pos goodInput snapC1pos (by rfl) (by decide)

/-- Claim C4 counterexample: the snapshot parsed from an active mode-0
report has an empty error dict — none of the six claimed keys is
present, refuting that errorMargins always carries them. -/
theorem C4_counterexample_empty_error_dict :
    (from_json (modePacket 0) goodInput).value = .ok snap0 ∧
    snap0.error = [] ∧
    dictGet? snap0.error "c" = none ∧ dictGet? snap0.error "s" = none ∧
    dictGet? snap0.error "t" = none ∧ dictGet? snap0.error "v" = none ∧
    dictGet? snap0.error "x" = none ∧ dictGet? snap0.error "y" = none :=
  ⟨by rfl, rfl, rfl, rfl, rfl, rfl, rfl, rfl⟩

/-- Claim C4 (amended): on every parsed snapshot the error dict is empty
below fix quality 2; at fix quality 2 or above it carries exactly the
six keys c (climb), s (speed), t (time), v (vertical), x (longitude),
y (latitude) in insertion order; and at exactly fix quality 2 the climb
and vertical entries are 0 (never populated). -/
theorem C4_error_margins_amended (packet : JVal) (input : List JVal)
    (d : GpsData) (h : (from_json packet input).value = .ok d) :
    (d.mode < 2 → d.error = []) ∧
    (2 ≤ d.mode → d.error.map (fun p => p.1) = ["c", "s", "t", "v", "x", "y"]) ∧
    (2 ≤ d.mode → d.mode < 3 →
      dictGet? d.error "c" = some 0 ∧ dictGet? d.error "v" = some 0) := by
  have hp := from_json_ok packet input d h
  obtain ⟨a, t, sk, g1, ha, htr, ht, hs, hsky, htpv⟩ :=
    parseFields_inv initData packet d hp
  refine ⟨fun hlt => ?_, fun hge => ?_, fun hge hlt3 => ?_⟩
  · have hstruct := parseTpv_lt2 g1 t d htpv hlt
    have herr := (parseSky_preserves initData sk g1 hsky).2.2.2.2.2.2.2.2
    rw [hstruct]
    simpa [initData] using herr
  · exact (parseTpv_error_shape g1 t d htpv hge).1
  · exact (parseTpv_error_shape g1 t d htpv hge).2.1 hlt3

/-- Claim C4 witness: the amended statement on the snapshots parsed from
bare mode-0 and mode-2 reports. -/
theorem C4_error_margins_amended_witness :
    snap0.error = [] ∧
    snap2.error.map (fun p => p.1) = ["c", "s", "t", "v", "x", "y"] ∧
    (dictGet? snap2.error "c" = some 0 ∧ dictGet? snap2.error "v" = some 0) :=
  ⟨(C4_error_margins_amended (modePacket 0) goodInput snap0 (by rfl)).1
     (by decide),
   (C4_error_margins_amended (modePacket 2) goodInput snap2 (by rfl)).2.1
     (by decide),
   (C4_error_margins_amended (modePacket 2) goodInput snap2 (by rfl)).2.2
     (by decide) (by decide)⟩
